import Mathlib

/-!
Shallow embedding of the AI-Video-Downloader backend
(src/backend/main.py, src/backend/downloader.py, src/backend/torrent_downloader.py)
and proofs about the claims of its specification.

The embedding models the job/lifecycle orchestration: the media worker
(`download_task` of downloader.py), its progress hook, the watcher thread of
`start_download` (main.py), the thread-job registry (`JobManager`), the torrent
manager state (`TorrentDownloader.add_torrent` / `cancel_torrent`) and the
torrent monitor loop (`TorrentDownloader._monitor`), together with the
websocket-channel traces and history side effects produced by a job.

External engines (yt-dlp, libtorrent) are modelled by the data they feed the
code: the sequence of progress-hook invocations for a media job, and the
per-tick `handle.status()` snapshots, metadata/seed availability ticks and the
cancellation-token observation point for a torrent job.
-/

namespace AVD

/-! ### Media lane events (downloader.py) -/

/-- Progress messages sent on a media job's websocket channel.  Fields follow
the dict payloads built in downloader.py (`progress_hook`, `download_task`)
and the watcher of `start_download` in main.py.  `finished` carries the
optional `final_path` / `filename` fields (the watcher's extra message carries
only a best-effort `final_path` and no `filename`). -/
inductive MediaEvent where
  | downloading (downloadedBytes totalBytes speed eta : Int)
  | processing (message : String)
  | cancelled
  | finished (finalPath filename : Option String)
  | error (msg : String)
deriving DecidableEq

/-- Value of the `status` key of a media message. -/
def MediaEvent.statusTag : MediaEvent → String
  | .downloading _ _ _ _ => "downloading"
  | .processing _ => "processing"
  | .cancelled => "cancelled"
  | .finished _ _ => "finished"
  | .error _ => "error"

/-- Whether a `status` value is terminal (`finished`, `cancelled` or `error`). -/
def isTerminalTag : Option String → Bool
  | some "finished" => true
  | some "cancelled" => true
  | some "error" => true
  | _ => false

/-- Number of terminal-status messages in a media trace. -/
def countTerminalM (evs : List MediaEvent) : Nat :=
  evs.countP (fun e => isTerminalTag (some e.statusTag))

/-- Number of messages with the given `status` value in a media trace. -/
def countTagM (tag : String) (evs : List MediaEvent) : Nat :=
  evs.countP (fun e => e.statusTag = tag)

/-! ### The yt-dlp progress hook (downloader.py, `progress_hook`) -/

/-- One invocation of the yt-dlp progress hook: the fields of the dict `d`
that `progress_hook` reads.  `none` models an absent key. -/
structure HookInput where
  status : String
  totalBytes : Option Int
  totalBytesEstimate : Option Int
  downloadedBytes : Option Int
  speed : Option Int
  eta : Option Int
deriving DecidableEq

/-- Model of `d.get('total_bytes') or d.get('total_bytes_estimate', 0)`.
Python `or` falls through on a falsy left operand (absent key or 0). -/
def hookTotal (d : HookInput) : Int :=
  match d.totalBytes with
  | some t => if t = 0 then d.totalBytesEstimate.getD 0 else t
  | none => d.totalBytesEstimate.getD 0

/-- Model of `progress_hook(d, callback, cancel_event)` (downloader.py 82-102).
`cancelSet` is the sampled value of `cancel_event.is_set()`.  When the token is
set the hook raises `Exception("Download cancelled")` (modelled as `.error`);
otherwise it forwards at most one progress message to the callback. -/
def progress_hook (cancelSet : Bool) (d : HookInput) : Except String (Option MediaEvent) :=
  if cancelSet then .error "Download cancelled"
  else if d.status = "downloading" then
    .ok (some (.downloading (d.downloadedBytes.getD 0) (hookTotal d)
      (d.speed.getD 0) (d.eta.getD 0)))
  else if d.status = "finished" then
    .ok (some (.processing "Processing file..."))
  else .ok none

/-- The hook invocations yt-dlp performs during `ydl.download`, in order.
`cancel i` samples `cancel_event.is_set()` at the i-th invocation.  Returns
the messages emitted and whether the hook raised (aborting the transfer);
after a raise no further hook runs. -/
def runHooks (cancel : Nat → Bool) : Nat → List HookInput → List MediaEvent × Bool
  | _, [] => ([], false)
  | i, d :: rest =>
    match progress_hook (cancel i) d with
    | .error _ => ([], true)
    | .ok ev =>
      let out := runHooks cancel (i + 1) rest
      (ev.toList ++ out.1, out.2)

/-! ### The media worker (downloader.py, `run_download_in_thread.download_task`) -/

/-- One media job's interaction with yt-dlp: whether `extract_info` succeeds,
the value of the cancellation token at the post-extraction checkpoint, the
hook invocations fired during `ydl.download` with the token's value at each,
whether `ydl.download` itself raises, and the data determining the final
filename. -/
structure MediaRun where
  extractOk : Bool
  extractErr : String
  cancelAtExtractCheck : Bool
  hooks : List HookInput
  cancelAtHook : Nat → Bool
  dlErr : Option String
  downloadDir : String
  titleStem : String
  infoExt : String
  mode : String

/-- Final extension: `'mp3' if mode == 'audio' else info.get('ext', 'mp4')`. -/
def MediaRun.finalExt (r : MediaRun) : String :=
  if r.mode = "audio" then "mp3" else r.infoExt

/-- Final filename `f"{sanitized_title}.{ext}"`. -/
def MediaRun.finalFilename (r : MediaRun) : String :=
  r.titleStem ++ "." ++ r.finalExt

/-- Final path `str(Path(download_dir) / final_filename)`. -/
def MediaRun.finalPath (r : MediaRun) : String :=
  r.downloadDir ++ "/" ++ r.finalFilename

/-- Messages the worker thread (`download_task`, downloader.py 12-76) emits via
the progress callback.  All exceptions are caught at the worker boundary and
converted into a single `error` message; a hook raise (cancellation observed
mid-transfer) therefore ends the trace with `error "Download cancelled"`,
not with a `cancelled` message. -/
def download_task_events (r : MediaRun) : List MediaEvent :=
  if r.extractOk = false then [.error r.extractErr]
  else if r.cancelAtExtractCheck then [.cancelled]
  else if (runHooks r.cancelAtHook 0 r.hooks).2 then
    (runHooks r.cancelAtHook 0 r.hooks).1 ++ [.error "Download cancelled"]
  else
    match r.dlErr with
    | some m => (runHooks r.cancelAtHook 0 r.hooks).1 ++ [.error m]
    | none =>
      (runHooks r.cancelAtHook 0 r.hooks).1 ++
        [.finished (some r.finalPath) (some r.finalFilename)]

/-! ### History entries (db.add_history_entry call sites in main.py) -/

/-- One row handed to `add_history_entry`. -/
structure HistoryEntry where
  id : String
  url : String
  filename : Option String
  mode : String
  status : String
deriving DecidableEq

/-- History rows recorded by the watcher of `start_download` (main.py 313-348).
The watcher runs after `thread.join()` on every termination path and always
records one entry with status "completed", whatever the worker's outcome;
`heuristicName` is the newest media file found in the download directory. -/
def media_watcher_history (id url mode : String) (heuristicName : Option String) :
    List HistoryEntry :=
  [⟨id, url, heuristicName, mode, "completed"⟩]

/-- Extra message the watcher sends on the job's channel after the worker
thread has terminated (main.py 340-346). -/
def watcher_events (heuristicName : Option String) : List MediaEvent :=
  [.finished heuristicName none]

/-- Everything that appears on a media job's websocket channel: the worker's
messages followed by the watcher's extra `finished` message. -/
def mediaChannelTrace (r : MediaRun) (heuristicName : Option String) : List MediaEvent :=
  download_task_events r ++ watcher_events heuristicName

/-! ### The thread-job registry (main.py, `JobManager`) -/

/-- `JobManager._jobs` as an association list from job id to the state of the
job's cancellation token (`threading.Event`); the worker-thread handle plays
no role in the registry logic. -/
def JobManager := List (String × Bool)

/-- Model of `JobManager.is_running`. -/
def JobManager.is_running (jm : JobManager) (id : String) : Bool :=
  ((jm : List (String × Bool)).find? (fun p => p.1 = id)).isSome

/-- Model of `JobManager.register` (`self._jobs[id] = {...}`, dict assignment
overwrites): a fresh, unset cancellation token is stored for `id`. -/
def JobManager.register (jm : JobManager) (id : String) : JobManager :=
  (id, false) :: (jm : List (String × Bool)).filter (fun p => ¬ p.1 = id)

/-- Model of `JobManager.get_cancel_event`. -/
def JobManager.get_cancel_event (jm : JobManager) (id : String) : Option Bool :=
  ((jm : List (String × Bool)).find? (fun p => p.1 = id)).map (fun p => p.2)

/-- Setting the token of job `id` (`cancel_event.set()`). -/
def JobManager.set_cancel (jm : JobManager) (id : String) : JobManager :=
  (jm : List (String × Bool)).map (fun p => if p.1 = id then (p.1, true) else p)

/-- Model of `JobManager.unregister` (`del self._jobs[id]` when present). -/
def JobManager.unregister (jm : JobManager) (id : String) : JobManager :=
  (jm : List (String × Bool)).filter (fun p => ¬ p.1 = id)

/-- Registration decision of `start_download` (main.py 294-310): a request for
an id with an active job is rejected with the 400 response
"job already running" and the registry is untouched; otherwise the job is
registered and "started" is returned. -/
def start_download (jm : JobManager) (id : String) : JobManager × String :=
  if jm.is_running id then (jm, "job already running")
  else (jm.register id, "started")

/-- Model of the `/cancel` endpoint (main.py 355-365): look up the token; if
present set it and answer "cancelling", else answer 404 "not found" leaving
the registry unchanged. -/
def cancel_download (jm : JobManager) (id : String) : JobManager × String :=
  match jm.get_cancel_event id with
  | some _ => (jm.set_cancel id, "cancelling")
  | none => (jm, "not found")

/-- Combined effect of one accepted media job (main.py `start_download` plus
its watcher): the channel trace, the history rows, and the registry once the
watcher has run (register on start, unregister after `thread.join()`). -/
structure MediaJobEffect where
  channel : List MediaEvent
  history : List HistoryEntry
  registryAfter : JobManager

/-- One accepted media job end to end. -/
def media_job (jm : JobManager) (id url mode : String) (r : MediaRun)
    (heuristicName : Option String) : MediaJobEffect :=
  ⟨mediaChannelTrace r heuristicName,
   media_watcher_history id url mode heuristicName,
   (jm.register id).unregister id⟩

/-! ### Torrent lane events (torrent_downloader.py, main.py) -/

/-- One `handle.status()` snapshot from libtorrent. -/
structure TStatus where
  numPeers : Nat
  progress : ℚ
  downloadRate : Nat
  uploadRate : Nat
  numSeeds : Nat
  totalWanted : Nat
  totalWantedDone : Nat
  stateLabel : String
deriving DecidableEq

/-- Messages produced on a torrent job's channel.  `completed` is the extra
dict keyed by `"event"` (it has no `"status"` key); `toastCompleted` is the
toast dict main.py's callback sends after a `finished` message (it carries
`"status": "finished"`). -/
inductive TorrentEvent where
  | fetchingMetadata (peers : Nat)
  | metadata (name : String) (totalSize : Nat) (numFiles : Nat)
  | downloading (progress : ℚ) (downloadRate uploadRate numPeers numSeeds : Nat)
      (eta : Int) (stateLabel : String)
  | finished (savePath name : String)
  | completed (id filePath name : String)
  | cancelled
  | toastCompleted (id savePath : String)
deriving DecidableEq

/-- Value of the `status` key of a torrent message, `none` when absent. -/
def TorrentEvent.statusTag : TorrentEvent → Option String
  | .fetchingMetadata _ => some "fetching_metadata"
  | .metadata _ _ _ => some "metadata"
  | .downloading _ _ _ _ _ _ _ => some "downloading"
  | .finished _ _ => some "finished"
  | .completed _ _ _ => none
  | .cancelled => some "cancelled"
  | .toastCompleted _ _ => some "finished"

/-- Number of terminal-status messages in a torrent trace. -/
def countTerminalT (evs : List TorrentEvent) : Nat :=
  evs.countP (fun e => isTerminalTag e.statusTag)

/-- Number of messages with the given `status` value in a torrent trace. -/
def countTagT (tag : String) (evs : List TorrentEvent) : Nat :=
  evs.countP (fun e => e.statusTag = some tag)

/-- Number of `finished` messages of the monitor itself (the constructor the
monitor emits once on completion). -/
def countFinishedCtor (evs : List TorrentEvent) : Nat :=
  evs.countP (fun e => match e with | .finished _ _ => true | _ => false)

/-- Progress percentage carried by a message, when it is a `downloading`
message. -/
def progressOf : TorrentEvent → Option ℚ
  | .downloading p _ _ _ _ _ _ => some p
  | _ => none

/-- Progress percentages carried by the `downloading` messages of a trace. -/
def progressValues (evs : List TorrentEvent) : List ℚ :=
  evs.filterMap progressOf

/-- Python `round(x, 2)`: rounding to two decimal places.  (Ties are rounded
half-up here while Python rounds half-to-even; the two agree on order and
bounds, which is all the development uses.) -/
def round2 (x : ℚ) : ℚ := ((round (x * 100) : ℤ) : ℚ) / 100

/-- Model of the eta computation of the monitor's download loop
(torrent_downloader.py 173-176).  Python's `int(remaining / rate)` truncates
toward zero, which is `Int.tdiv`. -/
def torrentEta (s : TStatus) : Int :=
  if 0 < s.downloadRate then
    Int.tdiv ((s.totalWanted : Int) - (s.totalWantedDone : Int)) (s.downloadRate : Int)
  else 0

/-- The `downloading` message built from one status snapshot
(torrent_downloader.py 178-187). -/
def downloadingEvent (s : TStatus) : TorrentEvent :=
  .downloading (round2 (s.progress * 100)) s.downloadRate s.uploadRate
    s.numPeers s.numSeeds (torrentEta s) s.stateLabel

/-- `str(Path(download_dir) / name)`. -/
def savePathOf (downloadDir name : String) : String := downloadDir ++ "/" ++ name

/-- One torrent job's interaction with libtorrent: `has_metadata()` becomes
true after `metaTicks` iterations of the metadata loop, `is_seed()` becomes
true after a further `dlTicks` iterations of the download loop, the
cancellation token reads as set from global tick `cancelAt` on (never, when
`none`), and `status t` is the snapshot read at global tick `t`. -/
structure TorrentRun where
  metaTicks : Nat
  dlTicks : Nat
  cancelAt : Option Nat
  status : Nat → TStatus
  name : String
  totalSize : Nat
  numFiles : Nat

/-- Whether `cancel_events[tid].is_set()` reads true at global tick `t`. -/
def cancelSet (c : Option Nat) (t : Nat) : Bool :=
  match c with
  | some u => decide (u ≤ t)
  | none => false

/-- Observable outcome of the monitor thread: the messages passed to the
callback, whether `session.remove_torrent(handle)` ran, and whether the
`handles[torrent_id]` entry was deleted. -/
structure MonitorOut where
  events : List TorrentEvent
  removedFromSession : Bool
  removedFromHandles : Bool
deriving DecidableEq

namespace TorrentDownloader

/-- Download phase of `TorrentDownloader._monitor` (torrent_downloader.py
163-209), started at global tick `t` with `j` iterations left before
`is_seed()` turns true.  Each iteration first polls the token: when set, the
handle is removed from the session and from `handles` and a single
`cancelled` message ends the trace; otherwise a `downloading` message built
from the tick's snapshot is emitted.  On completion the `finished` message
and the extra `completed` dict are emitted and the handle is NOT removed. -/
def monitorDl (r : TorrentRun) (tid downloadDir : String) : Nat → Nat → MonitorOut
  | _, 0 =>
    ⟨[.finished (savePathOf downloadDir r.name) r.name,
      .completed tid (savePathOf downloadDir r.name) r.name], false, false⟩
  | t, j + 1 =>
    if cancelSet r.cancelAt t then ⟨[.cancelled], true, true⟩
    else
      let out := monitorDl r tid downloadDir (t + 1) j
      ⟨downloadingEvent (r.status t) :: out.events,
       out.removedFromSession, out.removedFromHandles⟩

/-- Metadata phase of `TorrentDownloader._monitor` (torrent_downloader.py
139-160), started at global tick `t` with `i` iterations left before
`has_metadata()` turns true.  Each iteration polls the token: when set, a
single `cancelled` message ends the trace and the handle is NOT removed
(neither from the session nor from `handles`); otherwise a
`fetching_metadata` message is emitted (every 10th iteration additionally
forces a re-announce, which produces no message).  When metadata arrives the
`metadata` message is emitted and the download phase follows. -/
def monitorMeta (r : TorrentRun) (tid downloadDir : String) : Nat → Nat → MonitorOut
  | t, 0 =>
    let out := monitorDl r tid downloadDir t r.dlTicks
    ⟨.metadata r.name r.totalSize r.numFiles :: out.events,
     out.removedFromSession, out.removedFromHandles⟩
  | t, i + 1 =>
    if cancelSet r.cancelAt t then ⟨[.cancelled], false, false⟩
    else
      let out := monitorMeta r tid downloadDir (t + 1) i
      ⟨.fetchingMetadata (r.status t).numPeers :: out.events,
       out.removedFromSession, out.removedFromHandles⟩

/-- The whole monitor thread for one torrent job. -/
def monitor (r : TorrentRun) (tid downloadDir : String) : MonitorOut :=
  monitorMeta r tid downloadDir 0 r.metaTicks

/-- `TorrentDownloader` manager state: the `handles` and `cancel_events`
dicts (handles abstracted to numeric tokens) plus a count of monitor threads
started. -/
structure TMState where
  handles : List (String × Nat)
  cancelEvents : List (String × Bool)
  monitorsStarted : Nat
deriving DecidableEq

/-- Model of `TorrentDownloader.add_torrent` (torrent_downloader.py 87-136):
no duplicate check is made; `self.handles[torrent_id] = handle` and
`self.cancel_events[torrent_id] = threading.Event()` overwrite any existing
entries, a monitor thread is started unconditionally, and
`{"status": "started", "id": torrent_id}` is returned. -/
def add_torrent (st : TMState) (tid : String) (h : Nat) : TMState × String :=
  (⟨(tid, h) :: st.handles.filter (fun p => ¬ p.1 = tid),
    (tid, false) :: st.cancelEvents.filter (fun p => ¬ p.1 = tid),
    st.monitorsStarted + 1⟩, "started")

/-- Model of `TorrentDownloader.cancel_torrent` (torrent_downloader.py
212-215): set the token when the id is known, do nothing otherwise, and in
either case return `{"status": "cancelling"}`. -/
def cancel_torrent (st : TMState) (tid : String) : TMState × String :=
  (if (st.cancelEvents.find? (fun p => p.1 = tid)).isSome then
     ⟨st.handles,
      st.cancelEvents.map (fun p => if p.1 = tid then (p.1, true) else p),
      st.monitorsStarted⟩
   else st, "cancelling")

/-- Lookup of `self.handles[torrent_id]` (used by `get_status`). -/
def lookupHandle (st : TMState) (tid : String) : Option Nat :=
  (st.handles.find? (fun p => p.1 = tid)).map (fun p => p.2)

end TorrentDownloader

/-- Model of `torrent_progress_callback` in main.py's `add_torrent` (551-599):
every monitor message is forwarded to the `torrent_{id}` channel and, when the
message's `status` is `"finished"`, a toast dict (also carrying
`"status": "finished"`) is additionally sent. -/
def torrent_progress_callback (tid : String) (e : TorrentEvent) : List TorrentEvent :=
  match e with
  | .finished savePath _ => [e, .toastCompleted tid savePath]
  | _ => [e]

/-- The full `torrent_{id}` channel trace produced from the monitor's
messages. -/
def torrentChannelTrace (tid : String) (events : List TorrentEvent) : List TorrentEvent :=
  events.flatMap (torrent_progress_callback tid)

/-- `Path(save_path).name`: the part of the path after its last slash. -/
def baseName (s : String) : String :=
  String.mk ((s.toList.reverse.takeWhile (fun c => ¬ c = '/')).reverse)

/-- History rows recorded by `torrent_progress_callback`: one entry per
monitor message whose `status` is `"finished"` (main.py 568-581). -/
def torrent_history (tid magnet : String) (events : List TorrentEvent) : List HistoryEntry :=
  events.filterMap (fun e =>
    match e with
    | .finished savePath _ =>
      some ⟨tid, magnet, some (baseName savePath), "torrent", "completed"⟩
    | _ => none)

/-! ### Identifier derivation (main.py, `safe_hash_id`) -/

/-- Model of `safe_hash_id` (main.py 117-119): `str(abs(hash(s)))[:12]`.
Python's per-process string hash is passed in as a parameter; within one
process run it is a fixed function. -/
def safe_hash_id (pyHash : String → Int) (s : String) : String :=
  String.mk (((pyHash s).natAbs.repr.toList).take 12)

/-- Model of `payload.get("id") or safe_hash_id(url)` (main.py 290 and 544):
an absent or empty explicit id falls back to the derived one. -/
def derive_client_id (pyHash : String → Int) (explicit : Option String)
    (source : String) : String :=
  match explicit with
  | some i => if i = "" then safe_hash_id pyHash source else i
  | none => safe_hash_id pyHash source

/-- Eta carried by a message, when it is a `downloading` message. -/
def etaOf : TorrentEvent → Option Int
  | .downloading _ _ _ _ _ eta _ => some eta
  | _ => none

/-- Eta values carried by the `downloading` messages of a trace. -/
def etaValues (evs : List TorrentEvent) : List Int :=
  evs.filterMap etaOf

/-! ### Concrete runs used by witnesses and counterexamples -/

/-- A successful media run: one `downloading` hook tick, no cancellation. -/
def C2run : MediaRun :=
  ⟨true, "", false, [⟨"downloading", some 100, none, some 5, some 10, some 9⟩],
   fun _ => false, none, "/downloads", "video", "mp4", "video"⟩

/-- A media run whose token becomes set after two hook ticks: the third hook
invocation observes it and raises. -/
def C3run : MediaRun :=
  ⟨true, "", false,
   [⟨"downloading", some 100, none, some 5, some 10, some 9⟩,
    ⟨"downloading", some 100, none, some 50, some 10, some 5⟩,
    ⟨"downloading", some 100, none, some 60, some 10, some 4⟩],
   fun i => decide (2 ≤ i), none, "/downloads", "clip", "mp4", "video"⟩

/-- A media run cancelled at the post-extraction checkpoint. -/
def C4run : MediaRun :=
  ⟨true, "", true, [], fun _ => false, none, "/downloads", "v", "mp4", "video"⟩

/-- A constant libtorrent snapshot. -/
def C5status : TStatus := ⟨3, 1/2, 10, 1, 2, 100, 50, "downloading"⟩

/-- A torrent run that completes: metadata after 1 tick, seed after 2 more. -/
def C5run : TorrentRun := ⟨1, 2, none, fun _ => C5status, "file.bin", 100, 1⟩

/-- A torrent run cancelled at tick 1 (inside the download phase). -/
def C5cancelRun : TorrentRun := ⟨1, 2, some 1, fun _ => C5status, "file.bin", 100, 1⟩

/-- A hook dict reporting zero speed but a nonzero eta. -/
def C6hook : HookInput := ⟨"downloading", some 10, none, some 5, some 0, some 7⟩

/-- A snapshot with positive rate, used to evaluate the eta formula. -/
def C6status : TStatus := ⟨4, 3/4, 8, 1, 2, 100, 40, "downloading"⟩

/-- A completing torrent run built over `C6status`. -/
def C6run : TorrentRun := ⟨1, 2, none, fun _ => C6status, "g.bin", 100, 1⟩

/-- A half-done snapshot with zero upload activity. -/
def C7status : TStatus := ⟨0, 1/2, 5, 0, 0, 100, 50, "downloading"⟩

/-- A completing torrent run with constant snapshots. -/
def C7run : TorrentRun := ⟨1, 2, none, fun _ => C7status, "h.bin", 100, 1⟩

/-- A quarter-done snapshot. -/
def C8status : TStatus := ⟨2, 1/4, 6, 0, 1, 80, 20, "downloading"⟩

/-- A torrent run that completes after one download tick. -/
def C8run : TorrentRun := ⟨1, 1, none, fun _ => C8status, "i.bin", 80, 1⟩

/-- A torrent run cancelled at tick 1 (inside the download phase). -/
def C8cancelRun : TorrentRun := ⟨1, 2, some 1, fun _ => C8status, "i.bin", 80, 1⟩

/-- A fixed stand-in for one process run's string hash. -/
def C10hash : String → Int := fun _ => -1234567890123456789

/-! ### Helper lemmas: event counts -/

theorem countTerminalM_cons (e : MediaEvent) (l : List MediaEvent) :
    countTerminalM (e :: l) =
      countTerminalM l + (if isTerminalTag (some e.statusTag) then 1 else 0) :=
  List.countP_cons _ e l

theorem countTerminalM_append (l l' : List MediaEvent) :
    countTerminalM (l ++ l') = countTerminalM l + countTerminalM l' :=
  List.countP_append _ l l'

theorem countTagM_append (tag : String) (l l' : List MediaEvent) :
    countTagM tag (l ++ l') = countTagM tag l + countTagM tag l' :=
  List.countP_append _ l l'

theorem countTerminalT_cons (e : TorrentEvent) (l : List TorrentEvent) :
    countTerminalT (e :: l) =
      countTerminalT l + (if isTerminalTag e.statusTag then 1 else 0) :=
  List.countP_cons _ e l

theorem countTagT_cons (tag : String) (e : TorrentEvent) (l : List TorrentEvent) :
    countTagT tag (e :: l) =
      countTagT tag l + (if e.statusTag = some tag then 1 else 0) := by
  simp [countTagT, List.countP_cons]

theorem countFinishedCtor_cons (e : TorrentEvent) (l : List TorrentEvent) :
    countFinishedCtor (e :: l) =
      countFinishedCtor l +
        (if (match e with | .finished _ _ => true | _ => false) then 1 else 0) :=
  List.countP_cons _ e l

/-- The hook forwards only `downloading` and `processing` messages, so any
predicate failing on those counts zero over the hook-emitted part of a
trace. -/
theorem runHooks_countP (p : MediaEvent → Bool)
    (hdl : ∀ a b c d, p (.downloading a b c d) = false)
    (hpr : ∀ m, p (.processing m) = false) :
    ∀ (cancel : Nat → Bool) (i : Nat) (hooks : List HookInput),
      (runHooks cancel i hooks).1.countP p = 0 := by
  intro cancel i hooks
  induction hooks generalizing i with
  | nil => rfl
  | cons d rest ih =>
    simp only [runHooks, progress_hook]
    split_ifs with h1 h2 h3
    · rfl
    · simp [List.countP_cons, ih, hdl]
    · simp [List.countP_cons, ih, hpr]
    · simp [ih]

/-- The media worker emits exactly one terminal-status message on every path. -/
theorem countTerminalM_download_task (r : MediaRun) :
    countTerminalM (download_task_events r) = 1 := by
  have hz : ∀ cancel i hooks, countTerminalM (runHooks cancel i hooks).1 = 0 :=
    runHooks_countP _ (fun _ _ _ _ => rfl) (fun _ => rfl)
  unfold download_task_events
  split_ifs with h1 h2 h3
  · rfl
  · rfl
  · rw [countTerminalM_append, hz]; rfl
  · cases r.dlErr with
    | some m => rw [countTerminalM_append, hz]; rfl
    | none => rw [countTerminalM_append, hz]; rfl

/-- The hook part of a worker trace contains no `cancelled` and no `finished`
message. -/
theorem runHooks_no_cancelled_finished (cancel : Nat → Bool) (i : Nat)
    (hooks : List HookInput) :
    countTagM "cancelled" (runHooks cancel i hooks).1 = 0 ∧
      countTagM "finished" (runHooks cancel i hooks).1 = 0 :=
  ⟨runHooks_countP _ (fun _ _ _ _ => rfl) (fun _ => rfl) cancel i hooks,
   runHooks_countP _ (fun _ _ _ _ => rfl) (fun _ => rfl) cancel i hooks⟩

/-- The channel of a media job always carries exactly two terminal-status
messages: the worker's one and the watcher's extra `finished`. -/
theorem countTerminalM_mediaChannel (r : MediaRun) (hn : Option String) :
    countTerminalM (mediaChannelTrace r hn) = 2 := by
  unfold mediaChannelTrace watcher_events
  rw [countTerminalM_append, countTerminalM_download_task]
  rfl

namespace TorrentDownloader

/-- The download phase of the monitor emits exactly one terminal-status
message on every path. -/
theorem countTerminalT_monitorDl (r : TorrentRun) (tid dd : String) :
    ∀ (j t : Nat), countTerminalT (monitorDl r tid dd t j).events = 1 := by
  intro j
  induction j with
  | zero => intro t; rfl
  | succ j ih =>
    intro t
    cases h : cancelSet r.cancelAt t with
    | true => simp [monitorDl, h]; rfl
    | false => simp [monitorDl, h, countTerminalT_cons, downloadingEvent,
        TorrentEvent.statusTag, isTerminalTag, ih (t + 1)]

/-- The whole monitor emits exactly one terminal-status message on every
path. -/
theorem countTerminalT_monitor (r : TorrentRun) (tid dd : String) :
    ∀ (i t : Nat), countTerminalT (monitorMeta r tid dd t i).events = 1 := by
  intro i
  induction i with
  | zero =>
    intro t
    simp [monitorMeta, countTerminalT_cons, TorrentEvent.statusTag, isTerminalTag,
      countTerminalT_monitorDl r tid dd r.dlTicks t]
  | succ i ih =>
    intro t
    cases h : cancelSet r.cancelAt t with
    | true => simp [monitorMeta, h]; rfl
    | false => simp [monitorMeta, h, countTerminalT_cons,
        TorrentEvent.statusTag, isTerminalTag, ih (t + 1)]

/-- On every path the download phase emits exactly one of: the `finished`
message, or a `cancelled` message. -/
theorem finCan_monitorDl (r : TorrentRun) (tid dd : String) :
    ∀ (j t : Nat),
      countFinishedCtor (monitorDl r tid dd t j).events +
        countTagT "cancelled" (monitorDl r tid dd t j).events = 1 := by
  intro j
  induction j with
  | zero => intro t; rfl
  | succ j ih =>
    intro t
    cases h : cancelSet r.cancelAt t with
    | true => simp [monitorDl, h]; rfl
    | false =>
      have := ih (t + 1)
      simp [monitorDl, h, countFinishedCtor_cons, countTagT_cons, downloadingEvent,
        TorrentEvent.statusTag]
      omega

/-- On every path the whole monitor emits exactly one of: the `finished`
message, or a `cancelled` message. -/
theorem finCan_monitor (r : TorrentRun) (tid dd : String) :
    ∀ (i t : Nat),
      countFinishedCtor (monitorMeta r tid dd t i).events +
        countTagT "cancelled" (monitorMeta r tid dd t i).events = 1 := by
  intro i
  induction i with
  | zero =>
    intro t
    have := finCan_monitorDl r tid dd r.dlTicks t
    simp [monitorMeta, countFinishedCtor_cons, countTagT_cons, TorrentEvent.statusTag]
    omega
  | succ i ih =>
    intro t
    cases h : cancelSet r.cancelAt t with
    | true => simp [monitorMeta, h]; rfl
    | false =>
      have := ih (t + 1)
      simp [monitorMeta, h, countFinishedCtor_cons, countTagT_cons,
        TorrentEvent.statusTag]
      omega

end TorrentDownloader

/-- Forwarding through main.py's torrent callback adds one extra
`finished`-status message (the toast) per monitor `finished` message. -/
theorem countTerminalT_torrentChannel (tid : String) (evs : List TorrentEvent) :
    countTerminalT (torrentChannelTrace tid evs) =
      countTerminalT evs + countFinishedCtor evs := by
  induction evs with
  | nil => rfl
  | cons e rest ih =>
    simp only [torrentChannelTrace, List.flatMap_cons] at ih ⊢
    cases e <;>
      simp [torrent_progress_callback, countTerminalT_cons, countFinishedCtor_cons,
        TorrentEvent.statusTag, isTerminalTag, ih] <;>
      omega

/-- One history row is recorded per monitor `finished` message. -/
theorem torrent_history_length (tid magnet : String) (evs : List TorrentEvent) :
    (torrent_history tid magnet evs).length = countFinishedCtor evs := by
  induction evs with
  | nil => rfl
  | cons e rest ih =>
    have := ih
    cases e <;>
      simp [torrent_history, List.filterMap_cons, countFinishedCtor_cons] at this ⊢ <;>
      omega

/-! ### Helper lemmas: monitor path characterizations -/

namespace TorrentDownloader

/-- Download phase with no cancellation observed in its window: all ticks are
emitted as `downloading`, the trace ends `finished` + `completed`, and the
handle is removed neither from the session nor from `handles`. -/
theorem monitorDl_no_cancel (r : TorrentRun) (tid dd : String) :
    ∀ (j t : Nat), (∀ u, u < t + j → cancelSet r.cancelAt u = false) →
      monitorDl r tid dd t j =
        ⟨(List.range j).map (fun k => downloadingEvent (r.status (t + k))) ++
          [.finished (savePathOf dd r.name) r.name,
           .completed tid (savePathOf dd r.name) r.name], false, false⟩ := by
  intro j
  induction j with
  | zero => intro t _; rfl
  | succ j ih =>
    intro t H
    have hc : cancelSet r.cancelAt t = false := H t (by omega)
    have harith : ∀ k, t + 1 + k = t + (k + 1) := by omega
    simp only [monitorDl, hc, Bool.false_eq_true, if_false,
      ih (t + 1) (fun u hu => H u (by omega)), List.range_succ_eq_map,
      List.map_cons, List.map_map, List.cons_append]
    congr 1
    simp [Function.comp, harith]

/-- Download phase when the token becomes set inside its window: the handle
is removed from the session and from `handles`. -/
theorem monitorDl_cancel (r : TorrentRun) (tid dd : String) :
    ∀ (j t u : Nat), r.cancelAt = some u → t ≤ u → u < t + j →
      (monitorDl r tid dd t j).removedFromSession = true ∧
        (monitorDl r tid dd t j).removedFromHandles = true ∧
        .cancelled ∈ (monitorDl r tid dd t j).events := by
  intro j
  induction j with
  | zero => intro t u _ h1 h2; omega
  | succ j ih =>
    intro t u hca h1 h2
    cases hc : cancelSet r.cancelAt t with
    | true => simp [monitorDl, hc]
    | false =>
      have hlt : t < u := by
        by_contra hh
        have : u ≤ t := by omega
        simp [cancelSet, hca, this] at hc
      have := ih (t + 1) u hca (by omega) (by omega)
      simp only [monitorDl, hc, Bool.false_eq_true, if_false]
      refine ⟨this.1, this.2.1, List.mem_cons_of_mem _ this.2.2⟩

/-- Metadata phase with no cancellation observed in its window: all ticks are
emitted as `fetching_metadata`, then the `metadata` message, then the download
phase starting at the metadata tick. -/
theorem monitorMeta_no_cancel (r : TorrentRun) (tid dd : String) :
    ∀ (i t : Nat), (∀ u, u < t + i → cancelSet r.cancelAt u = false) →
      monitorMeta r tid dd t i =
        ⟨(List.range i).map (fun k => .fetchingMetadata (r.status (t + k)).numPeers) ++
          .metadata r.name r.totalSize r.numFiles ::
            (monitorDl r tid dd (t + i) r.dlTicks).events,
          (monitorDl r tid dd (t + i) r.dlTicks).removedFromSession,
          (monitorDl r tid dd (t + i) r.dlTicks).removedFromHandles⟩ := by
  intro i
  induction i with
  | zero => intro t _; rfl
  | succ i ih =>
    intro t H
    have hc : cancelSet r.cancelAt t = false := H t (by omega)
    have harith : ∀ k, t + 1 + k = t + (k + 1) := by omega
    have harith2 : t + 1 + i = t + (i + 1) := by omega
    simp only [monitorMeta, hc, Bool.false_eq_true, if_false,
      ih (t + 1) (fun u hu => H u (by omega)), List.range_succ_eq_map,
      List.map_cons, List.map_map, List.cons_append, harith2]
    congr 1
    simp [Function.comp, harith]

/-- Metadata phase when the token becomes set inside its window: the loop
ends with a `cancelled` message and the handle is removed neither from the
session nor from `handles`. -/
theorem monitorMeta_cancel (r : TorrentRun) (tid dd : String) :
    ∀ (i t u : Nat), r.cancelAt = some u → t ≤ u → u < t + i →
      (monitorMeta r tid dd t i).removedFromSession = false ∧
        (monitorMeta r tid dd t i).removedFromHandles = false ∧
        .cancelled ∈ (monitorMeta r tid dd t i).events := by
  intro i
  induction i with
  | zero => intro t u _ h1 h2; omega
  | succ i ih =>
    intro t u hca h1 h2
    cases hc : cancelSet r.cancelAt t with
    | true => simp [monitorMeta, hc]
    | false =>
      have hlt : t < u := by
        by_contra hh
        have : u ≤ t := by omega
        simp [cancelSet, hca, this] at hc
      have := ih (t + 1) u hca (by omega) (by omega)
      simp only [monitorMeta, hc, Bool.false_eq_true, if_false]
      refine ⟨this.1, this.2.1, List.mem_cons_of_mem _ this.2.2⟩

end TorrentDownloader

/-! ### Helper lemmas: rounding, progress values, digits -/

theorem round_mono_q {x y : ℚ} (h : x ≤ y) : round x ≤ round y := by
  rw [round_eq, round_eq]
  exact Int.floor_le_floor (by linarith)

theorem round2_mono {x y : ℚ} (h : x ≤ y) : round2 x ≤ round2 y := by
  unfold round2
  have hr : ((round (x * 100) : ℤ) : ℚ) ≤ ((round (y * 100) : ℤ) : ℚ) := by
    exact_mod_cast round_mono_q (mul_le_mul_of_nonneg_right h (by norm_num))
  gcongr

theorem round2_le_100 {x : ℚ} (h : x ≤ 100) : round2 x ≤ 100 := by
  unfold round2
  have hr : round (x * 100) ≤ round ((10000 : ℤ) : ℚ) := round_mono_q (by push_cast; linarith)
  rw [round_intCast] at hr
  have hr2 : ((round (x * 100) : ℤ) : ℚ) ≤ 10000 := by exact_mod_cast hr
  rw [div_le_iff₀ (by norm_num)]
  linarith

/-- A list sampled monotonically from a monotone function is a `≤`-chain. -/
theorem chain_le_map_range (h : Nat → ℚ) (mono : ∀ k, h k ≤ h (k + 1)) (n : Nat) :
    List.Chain' (fun a b => a ≤ b) ((List.range n).map h) := by
  rw [List.chain'_iff_get]
  intro i hi
  have hn : (List.range n).length = n := List.length_range n
  simp only [List.get_map, List.get_range]
  exact mono i

/-- Reading the progress field back out of a `downloading` message built from
a snapshot gives the rounded percentage. -/
theorem progressOf_downloadingEvent (s : TStatus) :
    progressOf (downloadingEvent s) = some (round2 (s.progress * 100)) := rfl

/-- The progress values of the no-cancellation monitor trace are exactly the
rounded per-tick snapshot percentages of the download phase. -/
theorem progressValues_monitor (r : TorrentRun) (tid dd : String)
    (H : ∀ u, u < r.metaTicks + r.dlTicks → cancelSet r.cancelAt u = false) :
    progressValues (TorrentDownloader.monitor r tid dd).events =
      (List.range r.dlTicks).map
        (fun k => round2 ((r.status (r.metaTicks + k)).progress * 100)) := by
  unfold TorrentDownloader.monitor
  rw [TorrentDownloader.monitorMeta_no_cancel r tid dd r.metaTicks 0
    (fun u hu => H u (by omega))]
  simp only [Nat.zero_add]
  rw [TorrentDownloader.monitorDl_no_cancel r tid dd r.dlTicks r.metaTicks
    (fun u hu => H u (by omega))]
  simp only [progressValues, List.filterMap_append, List.filterMap_cons,
    List.filterMap_map]
  have h1 : ∀ l : List Nat,
      List.filterMap
        (progressOf ∘ (fun k => TorrentEvent.fetchingMetadata (r.status k).numPeers)) l
        = [] := by
    intro l; induction l with
    | nil => rfl
    | cons a l ih => simp [List.filterMap_cons, ih, Function.comp, progressOf]
  have h2 : ∀ l : List Nat,
      List.filterMap
        (progressOf ∘ (fun k => downloadingEvent (r.status (r.metaTicks + k)))) l
        = l.map (fun k => round2 ((r.status (r.metaTicks + k)).progress * 100)) := by
    intro l; induction l with
    | nil => rfl
    | cons a l ih =>
      simp only [List.filterMap_cons, List.map_cons, Function.comp,
        progressOf_downloadingEvent]
      rw [ih]
  rw [h1, h2]
  simp [progressOf]

/-- Reading the eta field back out of a `downloading` message built from a
snapshot gives the per-tick eta. -/
theorem etaOf_downloadingEvent (s : TStatus) :
    etaOf (downloadingEvent s) = some (torrentEta s) := rfl

/-- The eta values of the no-cancellation monitor trace are exactly the
per-tick recomputed etas of the download phase. -/
theorem etaValues_monitor (r : TorrentRun) (tid dd : String)
    (H : ∀ u, u < r.metaTicks + r.dlTicks → cancelSet r.cancelAt u = false) :
    etaValues (TorrentDownloader.monitor r tid dd).events =
      (List.range r.dlTicks).map (fun k => torrentEta (r.status (r.metaTicks + k))) := by
  unfold TorrentDownloader.monitor
  rw [TorrentDownloader.monitorMeta_no_cancel r tid dd r.metaTicks 0
    (fun u hu => H u (by omega))]
  simp only [Nat.zero_add]
  rw [TorrentDownloader.monitorDl_no_cancel r tid dd r.dlTicks r.metaTicks
    (fun u hu => H u (by omega))]
  simp only [etaValues, List.filterMap_append, List.filterMap_cons, List.filterMap_map]
  have h1 : ∀ l : List Nat,
      List.filterMap
        (etaOf ∘ (fun k => TorrentEvent.fetchingMetadata (r.status k).numPeers)) l
        = [] := by
    intro l; induction l with
    | nil => rfl
    | cons a l ih => simp [List.filterMap_cons, ih, Function.comp, etaOf]
  have h2 : ∀ l : List Nat,
      List.filterMap (etaOf ∘ (fun k => downloadingEvent (r.status (r.metaTicks + k)))) l
        = l.map (fun k => torrentEta (r.status (r.metaTicks + k))) := by
    intro l; induction l with
    | nil => rfl
    | cons a l ih =>
      simp only [List.filterMap_cons, List.map_cons, Function.comp, etaOf_downloadingEvent]
      rw [ih]
  rw [h1, h2]
  simp [etaOf]

/-- The eta of a snapshot is non-negative, is zero at zero rate, and at
positive rate equals remaining bytes divided by the rate. -/
theorem torrentEta_spec (s : TStatus) (h : s.totalWantedDone ≤ s.totalWanted) :
    0 ≤ torrentEta s ∧ (s.downloadRate = 0 → torrentEta s = 0) ∧
      (0 < s.downloadRate →
        torrentEta s =
          ((s.totalWanted : ℤ) - (s.totalWantedDone : ℤ)) / (s.downloadRate : ℤ)) := by
  have hnum : (0 : ℤ) ≤ (s.totalWanted : ℤ) - (s.totalWantedDone : ℤ) := by
    have := h; omega
  unfold torrentEta
  by_cases hr : 0 < s.downloadRate
  · refine ⟨?_, ?_, ?_⟩
    · rw [if_pos hr]
      exact Int.tdiv_nonneg hnum (by positivity)
    · intro h0; omega
    · intro _
      rw [if_pos hr]
      exact Int.tdiv_eq_ediv hnum (by positivity)
  · refine ⟨?_, ?_, ?_⟩
    · rw [if_neg hr]
    · intro _; rw [if_neg hr]
    · intro h0; omega

/-! ### Helper lemmas: association lists of the registries -/

/-- Looking for a key among the entries filtered to other keys finds
nothing. -/
theorem find?_filter_ne (id : String) :
    ∀ l : List (String × Bool),
      (l.filter (fun p => ¬ p.1 = id)).find? (fun p => p.1 = id) = none := by
  intro l
  induction l with
  | nil => rfl
  | cons a l ih =>
    by_cases h : a.1 = id
    · simp [List.filter_cons, h, ih]
    · simp [List.filter_cons, h, List.find?_cons, ih]

/-- Setting the token of `id` rewrites exactly the found entry to `true`. -/
theorem find?_map_setTrue (id : String) :
    ∀ l : List (String × Bool),
      (l.map (fun p => if p.1 = id then (p.1, true) else p)).find? (fun p => p.1 = id)
        = (l.find? (fun p => p.1 = id)).map (fun p => (p.1, true)) := by
  intro l
  induction l with
  | nil => rfl
  | cons a l ih =>
    by_cases h : a.1 = id
    · simp [List.find?_cons, h]
    · simp [List.find?_cons, h, ih]

/-- Setting an already-set token changes nothing. -/
theorem setTrue_idem (id : String) :
    ∀ l : List (String × Bool),
      ((l.map (fun p => if p.1 = id then (p.1, true) else p)).map
          (fun p => if p.1 = id then (p.1, true) else p))
        = l.map (fun p => if p.1 = id then (p.1, true) else p) := by
  intro l
  induction l with
  | nil => rfl
  | cons a l ih =>
    by_cases h : a.1 = id
    · simp [h, ih]
    · simp [h, ih]

/-- Characters produced by `Nat.toDigitsCore` in base 10 are decimal digits
(given the accumulator already is). -/
theorem toDigitsCore_digits :
    ∀ (f n : Nat) (ds : List Char), (∀ c ∈ ds, c.isDigit = true) →
      ∀ c ∈ Nat.toDigitsCore 10 f n ds, c.isDigit = true := by
  intro f
  induction f with
  | zero =>
    intro n ds hds c hc
    simp only [Nat.toDigitsCore] at hc
    exact hds c hc
  | succ f ih =>
    intro n ds hds c hc
    have hdigit : (Nat.digitChar (n % 10)).isDigit = true := by
      have hlt : n % 10 < 10 := Nat.mod_lt _ (by norm_num)
      interval_cases h : n % 10 <;> decide
    simp only [Nat.toDigitsCore] at hc
    split at hc
    · rcases List.mem_cons.mp hc with rfl | hmem
      · exact hdigit
      · exact hds c hmem
    · refine ih (n / 10) (Nat.digitChar (n % 10) :: ds) ?_ c hc
      intro c' hc'
      rcases List.mem_cons.mp hc' with rfl | hmem
      · exact hdigit
      · exact hds c' hmem

/-- Every character of `Nat.repr` is a decimal digit. -/
theorem repr_digits (n : Nat) : ∀ c ∈ n.repr.toList, c.isDigit = true := by
  intro c hc
  have : n.repr.toList = Nat.toDigitsCore 10 (n + 1) n [] := rfl
  rw [this] at hc
  exact toDigitsCore_digits (n + 1) n [] (by intro c' hc'; cases hc') c hc

/-! ### Claims -/

/-- C1: a creation request for an identifier with an active job in the same
lane must be rejected (`AlreadyRunning`), no new worker started and the
running job left unaffected.  The media lane does this, but the torrent lane
does not: evaluated at the failing input (two `add_torrent` calls for "t1"),
the second call returns "started", overwrites the stored handle, starts a
second monitor thread, and resets the job's cancellation token (so a token
set by a cancel request is silently replaced by a fresh unset one), while the
media lane rejects the duplicate with "job already running". -/
theorem claim_C1_code_bug :
    (TorrentDownloader.add_torrent
      (TorrentDownloader.add_torrent (⟨[], [], 0⟩ : TorrentDownloader.TMState) "t1" 1).1
      "t1" 2).2 = "started" ∧
    TorrentDownloader.lookupHandle
      (TorrentDownloader.add_torrent
        (TorrentDownloader.add_torrent (⟨[], [], 0⟩ : TorrentDownloader.TMState) "t1" 1).1
        "t1" 2).1 "t1" = some 2 ∧
    (TorrentDownloader.add_torrent
      (TorrentDownloader.add_torrent (⟨[], [], 0⟩ : TorrentDownloader.TMState) "t1" 1).1
      "t1" 2).1.monitorsStarted = 2 ∧
    ((TorrentDownloader.add_torrent
        (TorrentDownloader.cancel_torrent
          (TorrentDownloader.add_torrent (⟨[], [], 0⟩ : TorrentDownloader.TMState) "t1" 1).1
          "t1").1
        "t1" 2).1.cancelEvents.find? (fun p => p.1 = "t1")).map (fun p => p.2) =
      some false ∧
    (start_download (start_download ([] : JobManager) "m1").1 "m1").2 =
      "job already running" :=
  ⟨rfl, rfl, rfl, rfl, rfl⟩

/-- C2 counterexample: a successful media job's channel carries TWO
terminal-status messages — the worker's `finished` and then the watcher's
extra `finished` — refuting "exactly one terminal event … no events after a
terminal event" at a concrete run. -/
theorem claim_C2_counterexample :
    mediaChannelTrace C2run (some "video.mp4") =
      [.downloading 5 100 10 9,
       .finished (some "/downloads/video.mp4") (some "video.mp4"),
       .finished (some "video.mp4") none] ∧
    countTerminalM (mediaChannelTrace C2run (some "video.mp4")) = 2 :=
  ⟨rfl, rfl⟩

/-- C2 amended: each worker emits exactly one terminal-status message, but it
is not the last message on the job's channel: the media watcher always sends
one more `finished` message after the worker exits, and main.py's torrent
callback sends one extra `finished`-status toast per monitor `finished`
message (besides the status-less `completed` dict). -/
theorem claim_C2_amended :
    (∀ (r : MediaRun) (hn : Option String),
      countTerminalM (download_task_events r) = 1 ∧
        countTerminalM (mediaChannelTrace r hn) = 2) ∧
    (∀ (r : TorrentRun) (tid dd : String),
      countTerminalT (TorrentDownloader.monitor r tid dd).events = 1) ∧
    (∀ (tid : String) (evs : List TorrentEvent),
      countTerminalT (torrentChannelTrace tid evs) =
        countTerminalT evs + countFinishedCtor evs) :=
  ⟨fun r hn => ⟨countTerminalM_download_task r, countTerminalM_mediaChannel r hn⟩,
   fun r tid dd => TorrentDownloader.countTerminalT_monitor r tid dd r.metaTicks 0,
   fun tid evs => countTerminalT_torrentChannel tid evs⟩

/-- C3 counterexample: a media run whose token is set during the download
phase emits `error "Download cancelled"`, not a `cancelled` message: the
hook raises, the worker's generic handler converts it to `error`. -/
theorem claim_C3_counterexample :
    download_task_events C3run =
      [.downloading 5 100 10 9, .downloading 50 100 10 5,
       .error "Download cancelled"] ∧
    countTagM "cancelled" (download_task_events C3run) = 0 :=
  ⟨rfl, rfl⟩

/-- C3 amended: when the token is observed set at a hook invocation during the
download phase, the transfer is aborted and the worker emits exactly one
`error` message carrying "Download cancelled" — no `cancelled` and no
`finished` message (the `cancelled` status is only emitted when the token is
already set at the post-extraction checkpoint). -/
theorem claim_C3_amended (r : MediaRun) (h1 : r.extractOk = true)
    (h2 : r.cancelAtExtractCheck = false)
    (h3 : (runHooks r.cancelAtHook 0 r.hooks).2 = true) :
    download_task_events r =
      (runHooks r.cancelAtHook 0 r.hooks).1 ++ [.error "Download cancelled"] ∧
    countTagM "cancelled" (download_task_events r) = 0 ∧
    countTagM "finished" (download_task_events r) = 0 := by
  have he : download_task_events r =
      (runHooks r.cancelAtHook 0 r.hooks).1 ++ [.error "Download cancelled"] := by
    simp [download_task_events, h1, h2, h3]
  refine ⟨he, ?_, ?_⟩
  · rw [he, countTagM_append, (runHooks_no_cancelled_finished _ _ _).1]
    rfl
  · rw [he, countTagM_append, (runHooks_no_cancelled_finished _ _ _).2]
    rfl

/-- C3 witness: the amended statement evaluated on the concrete cancelled
run. -/
theorem claim_C3_witness :
    countTagM "cancelled" (download_task_events C3run) = 0 ∧
      countTagM "finished" (download_task_events C3run) = 0 :=
  ⟨(claim_C3_amended C3run rfl rfl rfl).2.1,
   (claim_C3_amended C3run rfl rfl rfl).2.2⟩

/-- C4 counterexample: a media job that terminates `cancelled` still gets a
history row (the watcher records one entry with status "completed" on every
termination path). -/
theorem claim_C4_counterexample :
    download_task_events C4run = [.cancelled] ∧
    (media_job ([] : JobManager) "m1" "http://u" "video" C4run none).history =
      [⟨"m1", "http://u", none, "video", "completed"⟩] :=
  ⟨rfl, rfl⟩

/-- C4 amended: the torrent lane records exactly one history row per
`finished` monitor message (hence one on completion, none on cancellation);
the media lane records exactly one history row per job regardless of the
terminal outcome. -/
theorem claim_C4_amended :
    (∀ (jm : JobManager) (id url mode : String) (r : MediaRun) (hn : Option String),
      (media_job jm id url mode r hn).history.length = 1) ∧
    (∀ (tid magnet : String) (evs : List TorrentEvent),
      (torrent_history tid magnet evs).length = countFinishedCtor evs) ∧
    (∀ (r : TorrentRun) (tid dd : String),
      countFinishedCtor (TorrentDownloader.monitor r tid dd).events +
        countTagT "cancelled" (TorrentDownloader.monitor r tid dd).events = 1) :=
  ⟨fun _ _ _ _ _ _ => rfl,
   fun tid magnet evs => torrent_history_length tid magnet evs,
   fun r tid dd => TorrentDownloader.finCan_monitor r tid dd r.metaTicks 0⟩

/-- C5 counterexample: a torrent run that completes (monitor emits its
`finished` message) does NOT release the swarm handle from the session,
refuting "released … on completion" at a concrete run. -/
theorem claim_C5_counterexample :
    (TorrentDownloader.monitor C5run "t1" "/tor").removedFromSession = false ∧
    countFinishedCtor (TorrentDownloader.monitor C5run "t1" "/tor").events = 1 :=
  ⟨rfl, rfl⟩

/-- C5 amended: the handle is released from the session exactly when
cancellation is observed during the download phase; it is NOT released on
metadata-phase cancellation (the loop just emits `cancelled` and returns) and
NOT released on completion either. -/
theorem claim_C5_amended (r : TorrentRun) (tid dd : String) :
    (∀ u, r.cancelAt = some u → r.metaTicks ≤ u → u < r.metaTicks + r.dlTicks →
      (TorrentDownloader.monitor r tid dd).removedFromSession = true ∧
        (TorrentDownloader.monitor r tid dd).removedFromHandles = true) ∧
    (∀ u, r.cancelAt = some u → u < r.metaTicks →
      (TorrentDownloader.monitor r tid dd).removedFromSession = false ∧
        TorrentEvent.cancelled ∈ (TorrentDownloader.monitor r tid dd).events) ∧
    ((∀ u, u < r.metaTicks + r.dlTicks → cancelSet r.cancelAt u = false) →
      (TorrentDownloader.monitor r tid dd).removedFromSession = false) := by
  refine ⟨?_, ?_, ?_⟩
  · intro u hca hge hlt
    unfold TorrentDownloader.monitor
    rw [TorrentDownloader.monitorMeta_no_cancel r tid dd r.metaTicks 0
      (by intro v hv; simp [cancelSet, hca]; omega)]
    have := TorrentDownloader.monitorDl_cancel r tid dd r.dlTicks (0 + r.metaTicks) u
      hca (by omega) (by omega)
    exact ⟨this.1, this.2.1⟩
  · intro u hca hlt
    unfold TorrentDownloader.monitor
    have := TorrentDownloader.monitorMeta_cancel r tid dd r.metaTicks 0 u hca
      (by omega) (by omega)
    exact ⟨this.1, this.2.2⟩
  · intro H
    unfold TorrentDownloader.monitor
    rw [TorrentDownloader.monitorMeta_no_cancel r tid dd r.metaTicks 0
      (fun v hv => H v (by omega))]
    rw [TorrentDownloader.monitorDl_no_cancel r tid dd r.dlTicks (0 + r.metaTicks)
      (fun v hv => H v (by omega))]

/-- C5 witness: the amended statement evaluated on a run cancelled during the
download phase (handle released) . -/
theorem claim_C5_witness :
    (TorrentDownloader.monitor C5cancelRun "t1" "/tor").removedFromSession = true ∧
      (TorrentDownloader.monitor C5cancelRun "t1" "/tor").removedFromHandles = true :=
  (claim_C5_amended C5cancelRun "t1" "/tor").1 1 rfl (by decide) (by decide)

/-- C6 counterexample: a media `downloading` message forwards the engine's
eta unvalidated — a hook dict with speed 0 and eta 7 yields an event whose
eta is 7 although the rate is 0, refuting "eta equals 0 whenever the
corresponding rate is 0" for the media lane. -/
theorem claim_C6_counterexample :
    progress_hook false C6hook = .ok (some (.downloading 5 10 0 7)) ∧
      ¬ ((7 : Int) = 0) :=
  ⟨rfl, by decide⟩

/-- C6 amended: the torrent eta satisfies the claim — non-negative, zero at
zero rate, `(total_wanted - total_wanted_done) / download_rate` (Python's
truncating division) at positive rate, recomputed from the tick's snapshot at
every tick; the media lane merely forwards the engine-reported eta (default
0), so the zero-rate/eta-zero link does not hold there. -/
theorem claim_C6_amended :
    (∀ s : TStatus, s.totalWantedDone ≤ s.totalWanted →
      0 ≤ torrentEta s ∧ (s.downloadRate = 0 → torrentEta s = 0) ∧
        (0 < s.downloadRate →
          torrentEta s =
            ((s.totalWanted : ℤ) - (s.totalWantedDone : ℤ)) / (s.downloadRate : ℤ))) ∧
    (∀ (r : TorrentRun) (tid dd : String),
      (∀ u, u < r.metaTicks + r.dlTicks → cancelSet r.cancelAt u = false) →
      etaValues (TorrentDownloader.monitor r tid dd).events =
        (List.range r.dlTicks).map (fun k => torrentEta (r.status (r.metaTicks + k)))) ∧
    (∀ d : HookInput, d.status = "downloading" →
      progress_hook false d =
        .ok (some (.downloading (d.downloadedBytes.getD 0) (hookTotal d)
          (d.speed.getD 0) (d.eta.getD 0)))) :=
  ⟨fun s h => torrentEta_spec s h,
   fun r tid dd H => etaValues_monitor r tid dd H,
   fun d h => by simp [progress_hook, h]⟩

/-- C6 witness: the amended statement evaluated on a concrete snapshot and a
concrete completing run. -/
theorem claim_C6_witness :
    0 ≤ torrentEta C6status ∧
      torrentEta C6status =
        ((C6status.totalWanted : ℤ) - (C6status.totalWantedDone : ℤ)) /
          (C6status.downloadRate : ℤ) ∧
      etaValues (TorrentDownloader.monitor C6run "t6" "/tor").events =
        (List.range C6run.dlTicks).map
          (fun k => torrentEta (C6run.status (C6run.metaTicks + k))) :=
  ⟨(claim_C6_amended.1 C6status (by decide)).1,
   (claim_C6_amended.1 C6status (by decide)).2.2 (by decide),
   claim_C6_amended.2.1 C6run "t6" "/tor" (fun u _ => rfl)⟩

/-- C7: while no cancellation is observed, the `progress` values of the
`downloading` messages of a torrent job are monotonically non-decreasing and
all bounded by 100, assuming the engine's per-tick progress snapshots are
non-decreasing and at most 1 (libtorrent's invariant). -/
theorem claim_C7 (r : TorrentRun) (tid dd : String)
    (H : ∀ u, u < r.metaTicks + r.dlTicks → cancelSet r.cancelAt u = false)
    (hmono : ∀ t t', t ≤ t' → (r.status t).progress ≤ (r.status t').progress)
    (hbound : ∀ t, (r.status t).progress ≤ 1) :
    List.Chain' (fun a b => a ≤ b)
      (progressValues (TorrentDownloader.monitor r tid dd).events) ∧
    ∀ p ∈ progressValues (TorrentDownloader.monitor r tid dd).events, p ≤ 100 := by
  rw [progressValues_monitor r tid dd H]
  constructor
  · exact chain_le_map_range _
      (fun k => round2_mono
        (mul_le_mul_of_nonneg_right (hmono _ _ (by omega)) (by norm_num)))
      r.dlTicks
  · intro p hp
    simp only [List.mem_map, List.mem_range] at hp
    obtain ⟨k, _, rfl⟩ := hp
    refine round2_le_100 ?_
    have h1 := hbound (r.metaTicks + k)
    nlinarith

/-- C7 witness: the theorem evaluated on a concrete no-cancellation run with
constant snapshots. -/
theorem claim_C7_witness :
    List.Chain' (fun a b => a ≤ b)
      (progressValues (TorrentDownloader.monitor C7run "t7" "/tor").events) ∧
    ∀ p ∈ progressValues (TorrentDownloader.monitor C7run "t7" "/tor").events,
      p ≤ 100 :=
  claim_C7 C7run "t7" "/tor" (fun u _ => rfl) (fun t t' _ => le_refl _)
    (fun t => by norm_num [C7run, C7status])

/-- C8 counterexample: after a torrent job completes, its `handles` entry is
NOT deleted — the identifier stays registered, refuting "once its worker has
terminated (success, …) the registry entry is removed" for the torrent
lane. -/
theorem claim_C8_counterexample :
    (TorrentDownloader.monitor C8run "t8" "/tor").removedFromHandles = false ∧
    countFinishedCtor (TorrentDownloader.monitor C8run "t8" "/tor").events = 1 :=
  ⟨rfl, rfl⟩

/-- C8 amended: the media lane unregisters the job on every termination path
(so the identifier becomes inactive and reusable); the torrent lane deletes
its `handles` entry only when cancellation is observed during the download
phase — after completion or metadata-phase cancellation the entry remains. -/
theorem claim_C8_amended :
    (∀ (jm : JobManager) (id url mode : String) (r : MediaRun) (hn : Option String),
      JobManager.is_running (media_job jm id url mode r hn).registryAfter id = false) ∧
    (∀ (r : TorrentRun) (tid dd : String) (u : Nat),
      r.cancelAt = some u → r.metaTicks ≤ u → u < r.metaTicks + r.dlTicks →
      (TorrentDownloader.monitor r tid dd).removedFromHandles = true) ∧
    (∀ (r : TorrentRun) (tid dd : String),
      (∀ u, u < r.metaTicks + r.dlTicks → cancelSet r.cancelAt u = false) →
      (TorrentDownloader.monitor r tid dd).removedFromHandles = false) ∧
    (∀ (r : TorrentRun) (tid dd : String) (u : Nat),
      r.cancelAt = some u → u < r.metaTicks →
      (TorrentDownloader.monitor r tid dd).removedFromHandles = false) := by
  refine ⟨?_, ?_, ?_, ?_⟩
  · intro jm id url mode r hn
    have h := find?_filter_ne id (JobManager.register jm id)
    simp [media_job, JobManager.is_running, JobManager.unregister, h]
  · intro r tid dd u hca hge hlt
    unfold TorrentDownloader.monitor
    rw [TorrentDownloader.monitorMeta_no_cancel r tid dd r.metaTicks 0
      (by intro v hv; simp [cancelSet, hca]; omega)]
    exact (TorrentDownloader.monitorDl_cancel r tid dd r.dlTicks (0 + r.metaTicks) u
      hca (by omega) (by omega)).2.1
  · intro r tid dd H
    unfold TorrentDownloader.monitor
    rw [TorrentDownloader.monitorMeta_no_cancel r tid dd r.metaTicks 0
      (fun v hv => H v (by omega))]
    rw [TorrentDownloader.monitorDl_no_cancel r tid dd r.dlTicks (0 + r.metaTicks)
      (fun v hv => H v (by omega))]
  · intro r tid dd u hca hlt
    unfold TorrentDownloader.monitor
    exact (TorrentDownloader.monitorMeta_cancel r tid dd r.metaTicks 0 u hca
      (by omega) (by omega)).2.1

/-- C8 witness: the amended statement evaluated on a run cancelled during the
download phase (entry deleted) and implicitly, via the counterexample, on a
completed run. -/
theorem claim_C8_witness :
    (TorrentDownloader.monitor C8cancelRun "t8" "/tor").removedFromHandles = true :=
  claim_C8_amended.2.1 C8cancelRun "t8" "/tor" 1 rfl (by decide) (by decide)

/-- C9 counterexample: cancelling an unknown torrent identifier leaves the
manager state unchanged but answers "cancelling", not a "not found"
report. -/
theorem claim_C9_counterexample :
    TorrentDownloader.cancel_torrent (⟨[], [], 0⟩ : TorrentDownloader.TMState) "x" =
      (⟨[], [], 0⟩, "cancelling") ∧
    ¬ (("cancelling" : String) = "not found") :=
  ⟨rfl, by decide⟩

/-- C9 amended: the media lane behaves as claimed — unknown id: state
unchanged and 404 "not found"; active id: the token is set (without waiting)
and a second cancel is a no-op.  The torrent lane also leaves state unchanged
on an unknown id and is idempotent, but it always answers "cancelling", never
"not found". -/
theorem claim_C9_amended :
    (∀ (jm : JobManager) (id : String),
      jm.get_cancel_event id = none → cancel_download jm id = (jm, "not found")) ∧
    (∀ (jm : JobManager) (id : String) (b : Bool),
      jm.get_cancel_event id = some b →
      (cancel_download jm id).2 = "cancelling" ∧
        ((cancel_download jm id).1).get_cancel_event id = some true ∧
        cancel_download (cancel_download jm id).1 id =
          ((cancel_download jm id).1, "cancelling")) ∧
    (∀ (st : TorrentDownloader.TMState) (tid : String),
      st.cancelEvents.find? (fun p => p.1 = tid) = none →
      TorrentDownloader.cancel_torrent st tid = (st, "cancelling")) ∧
    (∀ (st : TorrentDownloader.TMState) (tid : String),
      TorrentDownloader.cancel_torrent (TorrentDownloader.cancel_torrent st tid).1 tid =
        ((TorrentDownloader.cancel_torrent st tid).1, "cancelling")) := by
  refine ⟨?_, ?_, ?_, ?_⟩
  · intro jm id h
    unfold cancel_download
    rw [h]
  · intro jm id b h
    have hresp : cancel_download jm id = (jm.set_cancel id, "cancelling") := by
      unfold cancel_download
      rw [h]
    have hget : (jm.set_cancel id).get_cancel_event id = some true := by
      unfold JobManager.get_cancel_event JobManager.set_cancel
      rw [find?_map_setTrue]
      unfold JobManager.get_cancel_event at h
      cases hf : (jm : List (String × Bool)).find? (fun p => p.1 = id) with
      | none => rw [hf] at h; cases h
      | some p => rfl
    refine ⟨by rw [hresp], by rw [hresp]; exact hget, ?_⟩
    rw [hresp]
    unfold cancel_download
    rw [hget]
    have hidem : JobManager.set_cancel (JobManager.set_cancel jm id) id =
        JobManager.set_cancel jm id := setTrue_idem id jm
    rw [hidem]
  · intro st tid h
    unfold TorrentDownloader.cancel_torrent
    simp [h]
  · intro st tid
    cases hf : st.cancelEvents.find? (fun p => p.1 = tid) with
    | none =>
      simp only [TorrentDownloader.cancel_torrent, hf, Option.isSome_none,
        Bool.false_eq_true, if_false]
    | some p =>
      simp only [TorrentDownloader.cancel_torrent, hf, Option.isSome_some, if_true,
        find?_map_setTrue, Option.map_some, Option.isSome_map, setTrue_idem]
      simp

/-- C9 witness: the amended statement evaluated on a registry with one active
job and on an unknown torrent identifier. -/
theorem claim_C9_witness :
    (cancel_download ([("m1", false)] : JobManager) "m1").2 = "cancelling" ∧
      JobManager.get_cancel_event
        (cancel_download ([("m1", false)] : JobManager) "m1").1 "m1" = some true ∧
      TorrentDownloader.cancel_torrent
        (⟨[("t1", 5)], [("t1", false)], 1⟩ : TorrentDownloader.TMState) "x" =
        (⟨[("t1", 5)], [("t1", false)], 1⟩, "cancelling") :=
  ⟨(claim_C9_amended.2.1 ([("m1", false)] : JobManager) "m1" false rfl).1,
   (claim_C9_amended.2.1 ([("m1", false)] : JobManager) "m1" false rfl).2.1,
   claim_C9_amended.2.2.1 (⟨[("t1", 5)], [("t1", false)], 1⟩ : TorrentDownloader.TMState)
     "x" rfl⟩

/-- C10: within one process run (a fixed per-process string hash), identifier
derivation is deterministic — equal sources yield equal derived identifiers —
and `safe_hash_id` yields a string of at most 12 characters, all decimal
digits. -/
theorem claim_C10 (pyHash : String → Int) (u1 u2 : String) (h : u1 = u2) :
    derive_client_id pyHash none u1 = derive_client_id pyHash none u2 ∧
    (safe_hash_id pyHash u1).length ≤ 12 ∧
    ∀ c ∈ (safe_hash_id pyHash u1).toList, c.isDigit = true := by
  subst h
  refine ⟨rfl, ?_, ?_⟩
  · have hlen : (safe_hash_id pyHash u1).length
        = (((pyHash u1).natAbs.repr.toList).take 12).length := rfl
    rw [hlen, List.length_take]
    exact inf_le_left
  · intro c hc
    have hc' : c ∈ ((pyHash u1).natAbs.repr.toList).take 12 := hc
    exact repr_digits _ c (List.mem_of_mem_take hc')

/-- C10 witness: the theorem evaluated on a concrete magnet URI and a fixed
hash function. -/
theorem claim_C10_witness :
    derive_client_id C10hash none "magnet:?xt=urn:btih:abc" =
        derive_client_id C10hash none "magnet:?xt=urn:btih:abc" ∧
    (safe_hash_id C10hash "magnet:?xt=urn:btih:abc").length ≤ 12 ∧
    ∀ c ∈ (safe_hash_id C10hash "magnet:?xt=urn:btih:abc").toList,
      c.isDigit = true :=
  claim_C10 C10hash _ _ rfl

end AVD
